import Mathlib

/-!
Verification of the memory-allocation layer of the repository
(`src/native/cocos/renderer/core/memory/MemDef.h`): a shallow embedding of the
allocation macros, the `ConstructN` array helper, and the categorised policy
selection, with the backend policy behaviour (which lives outside this
repository slice) modelled from the specification where a claim needs it.

Pointers/addresses are modelled as natural numbers; a null pointer is the
address `0` (the C++ macros test `if(ptr)`).  Each macro of `MemDef.h` is
embedded as a Lean function that returns the backend-policy call it expands
to (constructor of `BackendCall`), paired with the call-site metadata it
passes (`Option CallSite`), so that the tracked and untracked preprocessor
branches can be compared call-for-call.  Macros whose expansion runs
placement constructors or destructors are embedded as functions returning
the list of `MemEvent`s their expansion performs, in order.
-/

namespace Cocos

/-- Call-site metadata, the `__FILE__, __LINE__, __FUNCTION__` triple that
the tracked macro branch (under `#ifdef CC_MEMORY_TRACKER`) appends to the
backend calls. -/
structure CallSite where
  file : String
  line : Nat
  func : String
deriving DecidableEq, Repr

/-- The backend-policy entry points of `CategorisedAllocPolicy` invoked by
the macros of `MemDef.h`, together with the size/alignment/pointer arguments
of the call (the call-site metadata is carried separately). -/
inductive BackendCall where
  | allocateBytes (bytes : Nat)
  | reallocateBytes (ptr : Nat) (bytes : Nat)
  | deallocateBytes (ptr : Nat)
  | allocateBytesAligned (align : Nat) (bytes : Nat)
  | deallocateBytesAligned (ptr : Nat)
deriving DecidableEq, Repr

/-- Observable memory events performed by the macro expansions that run
placement constructors or destructors (`ConstructN`, `_CC_DELETE_T`,
`_CC_DELETE_ARRAY_T`): a default-constructor call at an element address with
its loop index, a destructor call likewise, or a buffer release. -/
inductive MemEvent where
  | construct (addr : Nat) (idx : Nat)
  | destruct (addr : Nat) (idx : Nat)
  | deallocateBytes (ptr : Nat)
  | deallocateBytesAligned (ptr : Nat)
deriving DecidableEq, Repr

/-! ## Untracked macro branch (MemDef.h lines 120-173, no CC_MEMORY_TRACKER) -/

/-- `_CC_MALLOC(bytes)` (line 123): `CategorisedAllocPolicy::AllocateBytes(bytes)`. -/
def ccMalloc (bytes : Nat) : BackendCall × Option CallSite :=
  (BackendCall.allocateBytes bytes, none)

/-- `_CC_REALLOC(ptr, bytes)` (line 125): `ReallocateBytes(ptr, bytes)`. -/
def ccRealloc (ptr bytes : Nat) : BackendCall × Option CallSite :=
  (BackendCall.reallocateBytes ptr bytes, none)

/-- `_CC_ALLOC_T(T, count)` (line 127): `AllocateBytes(sizeof(T)*(count))`;
`sizeT` stands for `sizeof(T)`. -/
def ccAllocT (sizeT count : Nat) : BackendCall × Option CallSite :=
  (BackendCall.allocateBytes (sizeT * count), none)

/-- `_CC_FREE(ptr)` (line 129): `DeallocateBytes((void*)ptr)`. -/
def ccFree (ptr : Nat) : BackendCall × Option CallSite :=
  (BackendCall.deallocateBytes ptr, none)

/-- `_CC_MALLOC_ALIGN(bytes, align)` (line 142):
`AllocateBytesAligned(align, bytes)`. -/
def ccMallocAlign (bytes align : Nat) : BackendCall × Option CallSite :=
  (BackendCall.allocateBytesAligned align bytes, none)

/-- `_CC_ALLOC_T_ALIGN(T, count, align)` (line 144):
`AllocateBytesAligned(align, sizeof(T)*(count))`. -/
def ccAllocTAlign (sizeT count align : Nat) : BackendCall × Option CallSite :=
  (BackendCall.allocateBytesAligned align (sizeT * count), none)

/-- `_CC_FREE_ALIGN(ptr, align)` (line 146):
`DeallocateBytesAligned((void*)ptr)` — the `align` parameter does not occur
in the expansion. -/
def ccFreeAlign (ptr align : Nat) : BackendCall × Option CallSite :=
  (BackendCall.deallocateBytesAligned ptr, none)

/-! ## Tracked macro branch (MemDef.h lines 63-118, CC_MEMORY_TRACKER) -/

/-- `_CC_MALLOC(bytes)` (line 66):
`AllocateBytes(bytes, __FILE__, __LINE__, __FUNCTION__)`. -/
def ccMallocTracked (bytes : Nat) (cs : CallSite) : BackendCall × Option CallSite :=
  (BackendCall.allocateBytes bytes, some cs)

/-- `_CC_REALLOC(ptr, bytes)` (line 68):
`ReallocateBytes(ptr, bytes, __FILE__, __LINE__, __FUNCTION__)`. -/
def ccReallocTracked (ptr bytes : Nat) (cs : CallSite) : BackendCall × Option CallSite :=
  (BackendCall.reallocateBytes ptr bytes, some cs)

/-- `_CC_ALLOC_T(T, count)` (line 70):
`AllocateBytes(sizeof(T)*(count), __FILE__, __LINE__, __FUNCTION__)`. -/
def ccAllocTTracked (sizeT count : Nat) (cs : CallSite) : BackendCall × Option CallSite :=
  (BackendCall.allocateBytes (sizeT * count), some cs)

/-- `_CC_FREE(ptr)` (line 72): `DeallocateBytes((void*)ptr)` — the tracked
branch passes no call-site metadata on free. -/
def ccFreeTracked (ptr : Nat) : BackendCall × Option CallSite :=
  (BackendCall.deallocateBytes ptr, none)

/-- `_CC_MALLOC_ALIGN(bytes, align)` (line 85):
`AllocateBytesAligned(align, bytes, __FILE__, __LINE__, __FUNCTION__)`. -/
def ccMallocAlignTracked (bytes align : Nat) (cs : CallSite) : BackendCall × Option CallSite :=
  (BackendCall.allocateBytesAligned align bytes, some cs)

/-- `_CC_ALLOC_T_ALIGN(T, count, align)` (line 87):
`AllocateBytesAligned(align, sizeof(T)*(count), __FILE__, __LINE__, __FUNCTION__)`. -/
def ccAllocTAlignTracked (sizeT count align : Nat) (cs : CallSite) : BackendCall × Option CallSite :=
  (BackendCall.allocateBytesAligned align (sizeT * count), some cs)

/-- `_CC_FREE_ALIGN(ptr, align)` (line 89): `DeallocateBytesAligned(ptr)` —
no call-site metadata, and `align` does not occur in the expansion. -/
def ccFreeAlignTracked (ptr align : Nat) : BackendCall × Option CallSite :=
  (BackendCall.deallocateBytesAligned ptr, none)

/-! ## SIMD shortcut macros -/

/-- Modelled from the spec: `CC_SIMD_ALIGNMENT` is defined in platform
configuration headers that are not part of this repository slice; the spec
gives the SIMD vector width as "e.g. 16 bytes".  The SIMD-macro claims hold
for any value of this constant. -/
def CC_SIMD_ALIGNMENT : Nat := 16

/-- `_CC_MALLOC_SIMD(bytes)` (lines 91/148): `_CC_MALLOC_ALIGN(bytes, CC_SIMD_ALIGNMENT)`. -/
def ccMallocSimd (bytes : Nat) : BackendCall × Option CallSite :=
  ccMallocAlign bytes CC_SIMD_ALIGNMENT

/-- `_CC_ALLOC_T_SIMD(T, count)` (lines 93/150): `_CC_ALLOC_T_ALIGN(T, count, CC_SIMD_ALIGNMENT)`. -/
def ccAllocTSimd (sizeT count : Nat) : BackendCall × Option CallSite :=
  ccAllocTAlign sizeT count CC_SIMD_ALIGNMENT

/-- `_CC_FREE_SIMD(ptr)` (lines 95/152): `_CC_FREE_ALIGN(ptr, CC_SIMD_ALIGNMENT)`. -/
def ccFreeSimd (ptr : Nat) : BackendCall × Option CallSite :=
  ccFreeAlign ptr CC_SIMD_ALIGNMENT

/-- Tracked-branch `_CC_MALLOC_SIMD(bytes)` (line 91). -/
def ccMallocSimdTracked (bytes : Nat) (cs : CallSite) : BackendCall × Option CallSite :=
  ccMallocAlignTracked bytes CC_SIMD_ALIGNMENT cs

/-- Tracked-branch `_CC_ALLOC_T_SIMD(T, count)` (line 93). -/
def ccAllocTSimdTracked (sizeT count : Nat) (cs : CallSite) : BackendCall × Option CallSite :=
  ccAllocTAlignTracked sizeT count CC_SIMD_ALIGNMENT cs

/-- Tracked-branch `_CC_FREE_SIMD(ptr)` (line 95). -/
def ccFreeSimdTracked (ptr : Nat) : BackendCall × Option CallSite :=
  ccFreeAlignTracked ptr CC_SIMD_ALIGNMENT

/-! ## ConstructN and the typed deletion macros -/

/-- The loop of `ConstructN` (MemDef.h lines 55-57):
`for (size_t i = 0; i < count; ++i) new ((void*)(basePtr+i)) T();`
embedded by recursion on the number of remaining iterations, with `i` the
current loop index.  Element addresses are in units of `sizeof(T)`, so the
placement-new target `basePtr+i` is the address `basePtr + i`. -/
def constructFrom (basePtr : Nat) (i : Nat) : Nat → List MemEvent
  | 0 => []
  | n + 1 => MemEvent.construct (basePtr + i) i :: constructFrom basePtr (i + 1) n

/-- `ConstructN(basePtr, count)` (MemDef.h lines 53-59): runs the placement
construction loop over indices `0 .. count-1` and returns `basePtr`.  The
result pairs the returned pointer with the ordered trace of constructor
calls the loop performs. -/
def ConstructN (basePtr : Nat) (count : Nat) : Nat × List MemEvent :=
  (basePtr, constructFrom basePtr 0 count)

/-- The loop of `_CC_DELETE_ARRAY_T` (lines 81/138):
`for (size_t b = 0; b < (size_t)count; ++b) {(ptr)[b].~T();}` embedded by
recursion on the number of remaining iterations, with `b` the current loop
index.  `(ptr)[b].~T()` is a destructor call at address `ptr + b`. -/
def destructFrom (ptr : Nat) (b : Nat) : Nat → List MemEvent
  | 0 => []
  | n + 1 => MemEvent.destruct (ptr + b) b :: destructFrom ptr (b + 1) n

/-- `_CC_DELETE_T(ptr, T)` (lines 79/136):
`if(ptr){(ptr)->~T(); DeallocateBytes((void*)ptr);}` — a null test, one
destructor call at `ptr`, then the buffer release.  The single destructor
call is recorded with loop index `0`. -/
def ccDeleteT (ptr : Nat) : List MemEvent :=
  if ptr ≠ 0 then [MemEvent.destruct ptr 0, MemEvent.deallocateBytes ptr] else []

/-- `_CC_DELETE_ARRAY_T(ptr, T, count)` (lines 81/138):
`if(ptr){for (size_t b = 0; b < (size_t)count; ++b) {(ptr)[b].~T();}
DeallocateBytes((void*)ptr);}` — a null test, the destructor loop over
indices `0 .. count-1`, then the buffer release. -/
def ccDeleteArrayT (ptr : Nat) (count : Nat) : List MemEvent :=
  if ptr ≠ 0 then destructFrom ptr 0 count ++ [MemEvent.deallocateBytes ptr] else []

/-! ## Categorised policy selection (MemDef.h lines 11-40) -/

/-- The build-time value of the `CC_MEMORY_ALLOCATOR` configuration macro:
exactly one of the three backends is selected per build. -/
inductive MemoryAllocatorConfig where
  | std
  | nedpooling
  | jemalloc
deriving DecidableEq, Repr

/-- The backend allocation policies the selector can bind
(`StdAllocPolicy`, `NedPoolingAllocPolicy`, `JeAllocPolicy`; their
implementations are external collaborators). -/
inductive AllocPolicyBackend where
  | stdAllocPolicy
  | nedPoolingAllocPolicy
  | jeAllocPolicy
deriving DecidableEq, Repr

/-- `CategorisedAllocPolicy` (MemDef.h lines 11-35): under
`CC_MEMORY_ALLOCATOR == CC_MEMORY_ALLOCATOR_STD` it is `StdAllocPolicy`,
under `..._NEDPOOLING` it is `NedPoolingAllocPolicy`, under `..._JEMALLOC`
it is `JeAllocPolicy`; the binding is a function of the build configuration
alone. -/
def CategorisedAllocPolicy : MemoryAllocatorConfig → AllocPolicyBackend
  | MemoryAllocatorConfig.std => AllocPolicyBackend.stdAllocPolicy
  | MemoryAllocatorConfig.nedpooling => AllocPolicyBackend.nedPoolingAllocPolicy
  | MemoryAllocatorConfig.jemalloc => AllocPolicyBackend.jeAllocPolicy

/-- `typedef CategorisedAllocPolicy GAP;` (MemDef.h line 39). -/
def GAP : MemoryAllocatorConfig → AllocPolicyBackend := CategorisedAllocPolicy

/-- `typedef CategorisedAllocPolicy STLAP;` (MemDef.h line 40). -/
def STLAP : MemoryAllocatorConfig → AllocPolicyBackend := CategorisedAllocPolicy

/-! ## Spec-modelled backend: aligned allocation -/

/-- Modelled from the spec: the backend policy's `AllocateBytesAligned`
(declared in `StdAlloc.h` / `NedPooling.h` / `JeAlloc.h`, which are not part
of this repository slice; only the dispatching macros of `MemDef.h` are).
The spec's contract: "`allocateAligned(align, size)` returns `ptr` such that
`ptr mod align == 0`".  Modelled as a bump allocator over abstract addresses:
the state is the next free address, and an aligned allocation rounds it up
to the next multiple of `align`.  Returns the allocated address and the new
state. -/
def AllocateBytesAligned (st : Nat) (align : Nat) (size : Nat) : Nat × Nat :=
  let p := if align = 0 then st else ((st + align - 1) / align) * align
  (p, p + size)

/-- The aligned allocation path `_CC_MALLOC_ALIGN(bytes, align)` run against
the modelled backend: the macro expands to `AllocateBytesAligned(align, bytes)`
(note the argument swap), so running it from allocator state `st` performs
exactly that backend call. -/
def ccMallocAlignRun (st : Nat) (bytes align : Nat) : Nat × Nat :=
  AllocateBytesAligned st align bytes

/-! ## Spec-modelled Debug Tracking Decorator -/

/-- Modelled from the spec: the `AllocationRecord` of the Debug Tracking
Decorator (the memory tracker invoked behind the call-site arguments of the
tracked macro branch; its implementation is not part of this repository
slice).  Per the spec it captures "pointer, size, ... call-site info". -/
structure AllocationRecord where
  ptr : Nat
  size : Nat
  callSite : CallSite
deriving DecidableEq, Repr

/-- Modelled from the spec: "around every allocate ..., insert an
AllocationRecord keyed by pointer, capturing call-site info and size".  The
record table is a list of live records; an allocate inserts one record. -/
def recordAlloc (table : List AllocationRecord) (p size : Nat) (cs : CallSite) :
    List AllocationRecord :=
  { ptr := p, size := size, callSite := cs } :: table

/-- Modelled from the spec: "around every ... deallocate, ... erase" the
record "keyed by pointer": a deallocate erases the record(s) whose key is
the freed pointer. -/
def recordDealloc (table : List AllocationRecord) (p : Nat) : List AllocationRecord :=
  table.filter fun r => r.ptr ≠ p

/-- The number of live allocation records in the tracker table. -/
def liveRecordCount (table : List AllocationRecord) : Nat := table.length

/-- A sequence of tracked allocate calls returning the pointers `ptrs`, each
inserting its record (all with the same size and call site, which the
counting claims do not depend on). -/
def allocAll (table : List AllocationRecord) (ptrs : List Nat) (size : Nat)
    (cs : CallSite) : List AllocationRecord :=
  ptrs.foldl (fun t p => recordAlloc t p size cs) table

/-- A sequence of tracked deallocate calls on the pointers `ptrs`, each
erasing its record. -/
def deallocAll (table : List AllocationRecord) (ptrs : List Nat) :
    List AllocationRecord :=
  ptrs.foldl (fun t p => recordDealloc t p) table

/-! ## Supporting lemmas -/

/-- The construction loop starting at index `i` with `n` iterations left
produces one constructor event per index `i, i+1, …, i+n-1`, in that order. -/
theorem constructFrom_eq (basePtr : Nat) :
    ∀ (n i : Nat), constructFrom basePtr i n =
      (List.range' i n).map fun j => MemEvent.construct (basePtr + j) j := by
  intro n
  induction n with
  | zero => intro i; rfl
  | succ k ih => intro i; simp [constructFrom, List.range'_succ, ih]

/-- The destruction loop starting at index `b` with `n` iterations left
produces one destructor event per index `b, b+1, …, b+n-1`, in that order. -/
theorem destructFrom_eq (ptr : Nat) :
    ∀ (n b : Nat), destructFrom ptr b n =
      (List.range' b n).map fun j => MemEvent.destruct (ptr + j) j := by
  intro n
  induction n with
  | zero => intro b; rfl
  | succ k ih => intro b; simp [destructFrom, List.range'_succ, ih]

/-- Unfolding one allocate of a tracked allocation sequence. -/
theorem allocAll_cons (t : List AllocationRecord) (p : Nat) (rest : List Nat)
    (size : Nat) (cs : CallSite) :
    allocAll t (p :: rest) size cs = allocAll (recordAlloc t p size cs) rest size cs := rfl

/-- Unfolding one deallocate of a tracked deallocation sequence. -/
theorem deallocAll_cons (t : List AllocationRecord) (p : Nat) (rest : List Nat) :
    deallocAll t (p :: rest) = deallocAll (recordDealloc t p) rest := rfl

/-- Each tracked allocate inserts exactly one record: `k` allocates grow the
table by `k` records. -/
theorem allocAll_length (ptrs : List Nat) :
    ∀ (t : List AllocationRecord) (size : Nat) (cs : CallSite),
      (allocAll t ptrs size cs).length = t.length + ptrs.length := by
  induction ptrs with
  | nil => intro t size cs; rfl
  | cons p rest ih =>
    intro t size cs
    rw [allocAll_cons, ih]
    simp [recordAlloc]
    omega

/-- Every record present after a tracked allocation sequence either carries
one of the allocated pointers or was already in the table. -/
theorem mem_allocAll (ptrs : List Nat) :
    ∀ (t : List AllocationRecord) (size : Nat) (cs : CallSite) (r : AllocationRecord),
      r ∈ allocAll t ptrs size cs → r.ptr ∈ ptrs ∨ r ∈ t := by
  induction ptrs with
  | nil => intro t size cs r h; exact Or.inr h
  | cons p rest ih =>
    intro t size cs r h
    rw [allocAll_cons] at h
    rcases ih _ size cs r h with h1 | h2
    · exact Or.inl (List.mem_cons_of_mem _ h1)
    · rcases List.mem_cons.mp h2 with rfl | h3
      · exact Or.inl (by simp [recordAlloc])
      · exact Or.inr h3

/-- Deallocating every pointer that keys a record empties the table. -/
theorem deallocAll_eq_nil (ptrs : List Nat) :
    ∀ t : List AllocationRecord, (∀ r ∈ t, r.ptr ∈ ptrs) → deallocAll t ptrs = [] := by
  induction ptrs with
  | nil =>
    intro t h
    cases t with
    | nil => rfl
    | cons r rest => exact absurd (h r (by simp)) (by simp)
  | cons p rest ih =>
    intro t h
    rw [deallocAll_cons]
    apply ih
    intro r hr
    have hmem := List.mem_filter.mp hr
    have h1 : r.ptr ∈ p :: rest := h r hmem.1
    have h2 : r.ptr ≠ p := by simpa using hmem.2
    rcases List.mem_cons.mp h1 with e | e
    · exact absurd e h2
    · exact e

/-! ## The claims -/

/-- Claim C1: for every size `s > 0` and every alignment
`a ∈ {1, 4, 8, 16, 32}`, the aligned allocation path
(`_CC_MALLOC_ALIGN` → `AllocateBytesAligned`, the latter modelled from the
spec) returns a pointer `ptr` with `ptr mod a = 0`, from any allocator
state. -/
theorem C1_mallocAlign_aligned (st s a : Nat) (hs : 0 < s)
    (ha : a = 1 ∨ a = 4 ∨ a = 8 ∨ a = 16 ∨ a = 32) :
    (ccMallocAlignRun st s a).1 % a = 0 := by
  have ha0 : a ≠ 0 := by rcases ha with h | h | h | h | h <;> simp [h]
  simp [ccMallocAlignRun, AllocateBytesAligned, ha0, Nat.mul_mod_left]

/-- Witness for C1 at `st = 3`, `s = 16`, `a = 16`. -/
theorem C1_mallocAlign_aligned_witness :
    (0 : Nat) < 16 ∧
      ((16 : Nat) = 1 ∨ (16 : Nat) = 4 ∨ (16 : Nat) = 8 ∨ (16 : Nat) = 16 ∨
        (16 : Nat) = 32) ∧
      (ccMallocAlignRun 3 16 16).1 % 16 = 0 :=
  ⟨by decide, by decide, C1_mallocAlign_aligned 3 16 16 (by decide) (by decide)⟩

/-- Claim C2: `ConstructN(basePtr, N)` default-constructs exactly `N`
elements, one at each index `0 .. N-1` in ascending index order (its event
trace is exactly the constructor events over `List.range N`, hence zero
events when `N = 0`), and returns `basePtr` unchanged. -/
theorem C2_constructN_trace (basePtr count : Nat) :
    (ConstructN basePtr count).1 = basePtr ∧
    (ConstructN basePtr count).2 =
      (List.range count).map fun i => MemEvent.construct (basePtr + i) i := by
  refine ⟨rfl, ?_⟩
  simp [ConstructN, constructFrom_eq, List.range_eq_range']

/-- Claim C3: for every non-null `ptr` and count `N`,
`_CC_DELETE_ARRAY_T(ptr, T, N)` performs exactly `N` destructor calls, one
at each index `0 .. N-1` in ascending index order, all of them before the
single `DeallocateBytes` call on the buffer. -/
theorem C3_deleteArrayT_trace (ptr count : Nat) (h : ptr ≠ 0) :
    ccDeleteArrayT ptr count =
      ((List.range count).map fun b => MemEvent.destruct (ptr + b) b) ++
        [MemEvent.deallocateBytes ptr] := by
  simp [ccDeleteArrayT, h, destructFrom_eq, List.range_eq_range']

/-- Witness for C3 at `ptr = 2`, `count = 3`. -/
theorem C3_deleteArrayT_trace_witness :
    (2 : Nat) ≠ 0 ∧
      ccDeleteArrayT 2 3 =
        ((List.range 3).map fun b => MemEvent.destruct (2 + b) b) ++
          [MemEvent.deallocateBytes 2] :=
  ⟨by decide, C3_deleteArrayT_trace 2 3 (by decide)⟩

/-- Claim C4: for malloc, realloc, typed alloc, aligned alloc, typed aligned
alloc, free and aligned free, the tracked and untracked macro branches expand
to the same backend-policy call with the same size and alignment arguments;
the only difference is the call-site metadata the tracked allocation macros
additionally pass (the free macros pass none in either branch), so allocation
addresses, outcomes and alignment behaviour coincide. -/
theorem C4_tracked_untracked_same_backend_call
    (bytes ptr sizeT count align : Nat) (cs : CallSite) :
    (ccMallocTracked bytes cs).1 = (ccMalloc bytes).1 ∧
    (ccReallocTracked ptr bytes cs).1 = (ccRealloc ptr bytes).1 ∧
    (ccAllocTTracked sizeT count cs).1 = (ccAllocT sizeT count).1 ∧
    (ccMallocAlignTracked bytes align cs).1 = (ccMallocAlign bytes align).1 ∧
    (ccAllocTAlignTracked sizeT count align cs).1 = (ccAllocTAlign sizeT count align).1 ∧
    ccFreeTracked ptr = ccFree ptr ∧
    ccFreeAlignTracked ptr align = ccFreeAlign ptr align ∧
    (ccMallocTracked bytes cs).2 = some cs ∧
    (ccReallocTracked ptr bytes cs).2 = some cs ∧
    (ccAllocTTracked sizeT count cs).2 = some cs ∧
    (ccMallocAlignTracked bytes align cs).2 = some cs ∧
    (ccAllocTAlignTracked sizeT count align cs).2 = some cs ∧
    (ccMalloc bytes).2 = none ∧
    (ccRealloc ptr bytes).2 = none ∧
    (ccAllocT sizeT count).2 = none ∧
    (ccMallocAlign bytes align).2 = none ∧
    (ccAllocTAlign sizeT count align).2 = none :=
  ⟨rfl, rfl, rfl, rfl, rfl, rfl, rfl, rfl, rfl, rfl, rfl, rfl, rfl, rfl, rfl, rfl, rfl⟩

/-- Counterexample to claim C5: the pointer handles returned by the aligned
and the unaligned allocation paths are the same raw addresses (both macro
families traffic in plain `void*`/`T*` values, embedded as `Nat`), and
`_CC_FREE` accepts a pointer obtained from the aligned path: at allocator
state `3`, `_CC_MALLOC_ALIGN(16, 16)` returns address `16`, and
`_CC_FREE(16)` expands to the `DeallocateBytes` backend call on it — the
mismatched release proceeds instead of being rejected by construction. -/
theorem C5_counterexample_no_rejection :
    (ccMallocAlignRun 3 16 16).1 = 16 ∧
    ccFree 16 = (BackendCall.deallocateBytes 16, none) := by
  constructor
  · rfl
  · rfl

/-- Claim C5 as amended: both allocation paths yield the same untyped
pointer handle, and the deallocation macros are unconditional — for every
pointer value, regardless of which path allocated it, `_CC_FREE` invokes
`DeallocateBytes` and `_CC_FREE_ALIGN` invokes `DeallocateBytesAligned`
(in both macro branches); the aligned/unaligned pairing is documented in
comments but left to caller discipline, not enforced by construction. -/
theorem C5_free_untyped_caller_discipline (ptr align : Nat) :
    (ccFree ptr).1 = BackendCall.deallocateBytes ptr ∧
    (ccFreeTracked ptr).1 = BackendCall.deallocateBytes ptr ∧
    (ccFreeAlign ptr align).1 = BackendCall.deallocateBytesAligned ptr ∧
    (ccFreeAlignTracked ptr align).1 = BackendCall.deallocateBytesAligned ptr :=
  ⟨rfl, rfl, rfl, rfl⟩

/-- Claim C6: the `GAP` and `STLAP` shortcuts are the very
`CategorisedAllocPolicy` binding fixed by the build configuration, so for
every configuration (and hence every allocation request) all category tags
resolve to the same single backend policy. -/
theorem C6_category_single_policy (cfg : MemoryAllocatorConfig) :
    GAP cfg = CategorisedAllocPolicy cfg ∧
    STLAP cfg = CategorisedAllocPolicy cfg ∧
    GAP cfg = STLAP cfg :=
  ⟨rfl, rfl, rfl⟩

/-- Claim C7: with tracking enabled (modelled from the spec), after `k`
allocate calls returning distinct pointers with no matching deallocate the
live record count is `k`, and after the `k` matching deallocate calls it
is `0`. -/
theorem C7_tracking_record_count (ptrs : List Nat) (size : Nat) (cs : CallSite)
    (h : ptrs.Nodup) :
    liveRecordCount (allocAll [] ptrs size cs) = ptrs.length ∧
    liveRecordCount (deallocAll (allocAll [] ptrs size cs) ptrs) = 0 := by
  constructor
  · simpa [liveRecordCount] using allocAll_length ptrs [] size cs
  · have hnil : deallocAll (allocAll [] ptrs size cs) ptrs = [] := by
      apply deallocAll_eq_nil
      intro r hr
      rcases mem_allocAll ptrs [] size cs r hr with h1 | h2
      · exact h1
      · exact absurd h2 (List.not_mem_nil r)
    simp [liveRecordCount, hnil]

/-- Witness for C7 at three distinct pointers. -/
theorem C7_tracking_record_count_witness :
    ([10, 20, 30] : List Nat).Nodup ∧
      (liveRecordCount (allocAll [] [10, 20, 30] 4 ⟨"a", 1, "f"⟩) =
          ([10, 20, 30] : List Nat).length ∧
        liveRecordCount
            (deallocAll (allocAll [] [10, 20, 30] 4 ⟨"a", 1, "f"⟩) [10, 20, 30]) = 0) :=
  ⟨by decide, C7_tracking_record_count [10, 20, 30] 4 ⟨"a", 1, "f"⟩ (by decide)⟩

/-- Claim C8: each SIMD macro is definitionally the corresponding
user-alignment macro instantiated at `CC_SIMD_ALIGNMENT`, in both the
untracked and the tracked branch. -/
theorem C8_simd_eq_align_at_simd_alignment
    (bytes sizeT count ptr : Nat) (cs : CallSite) :
    ccMallocSimd bytes = ccMallocAlign bytes CC_SIMD_ALIGNMENT ∧
    ccAllocTSimd sizeT count = ccAllocTAlign sizeT count CC_SIMD_ALIGNMENT ∧
    ccFreeSimd ptr = ccFreeAlign ptr CC_SIMD_ALIGNMENT ∧
    ccMallocSimdTracked bytes cs = ccMallocAlignTracked bytes CC_SIMD_ALIGNMENT cs ∧
    ccAllocTSimdTracked sizeT count cs =
      ccAllocTAlignTracked sizeT count CC_SIMD_ALIGNMENT cs ∧
    ccFreeSimdTracked ptr = ccFreeAlignTracked ptr CC_SIMD_ALIGNMENT :=
  ⟨rfl, rfl, rfl, rfl, rfl, rfl⟩

/-- Claim C9: invoking `_CC_DELETE_T` or `_CC_DELETE_ARRAY_T` on a null
pointer is a no-op: the event trace is empty — no destructor runs and
`DeallocateBytes` is not called, for every count. -/
theorem C9_null_delete_noop :
    ccDeleteT 0 = [] ∧ ∀ count : Nat, ccDeleteArrayT 0 count = [] := by
  constructor
  · rfl
  · intro count; rfl

/-- Claim C10: `_CC_FREE_ALIGN` discards its alignment argument — for every
pointer and any two alignments the expansions are identical, namely the
`DeallocateBytesAligned(ptr)` backend call, in both macro branches. -/
theorem C10_freeAlign_discards_alignment (ptr a1 a2 : Nat) :
    ccFreeAlign ptr a1 = ccFreeAlign ptr a2 ∧
    (ccFreeAlign ptr a1).1 = BackendCall.deallocateBytesAligned ptr ∧
    ccFreeAlignTracked ptr a1 = ccFreeAlignTracked ptr a2 ∧
    (ccFreeAlignTracked ptr a1).1 = BackendCall.deallocateBytesAligned ptr :=
  ⟨rfl, rfl, rfl, rfl⟩

end Cocos
